import Mathlib

/-!
Shallow embedding of the `luminos-container` service container
(`src/container.rs`), a `TypeId`-keyed dependency-injection registry.

Modelling decisions:
* `TypeId` is modelled as `Nat` (an opaque, decidable-equality key).
* A `Box<dyn Any>` instance is modelled as an `Obj`: an allocation
  address (`addr`, the Box pointer identity — two separately allocated
  boxes have distinct addresses) together with an opaque payload (`val`).
* Factory closures `Fn(&dyn Contract) -> Box<dyn Any>` are
  defunctionalised: no claim depends on a factory re-entering the
  container, so a factory is represented by the payload it produces;
  invoking it allocates a fresh box holding that payload.  Allocation is
  made explicit by threading the fresh address as an argument.
* `HashMap<TypeId, V>` is modelled as `Nat → Option V`; `insert` is the
  overwriting update, exactly as `HashMap::insert`.
* Provider callbacks (`ServiceProvider::register` / `boot`) receive
  `&mut Container` and may act on it; they are defunctionalised into
  lists of actions on the container.  Nested provider registration (a
  callback calling `register_provider`) is supported one level deep via
  `SubProvider`, whose own callbacks perform only simple actions — the
  depth every claim needs.  Callback invocations are recorded as events
  so that ordering claims are about the observable trace.
-/

namespace Luminos

/-- A `TypeId`: opaque process-wide type identity key. -/
abbrev TypeId := Nat

/-- A boxed instance (`Box<dyn Any>`): allocation address plus payload.
Two distinct allocations have distinct `addr`. -/
structure Obj where
  addr : Nat
  val : Nat
deriving DecidableEq, Repr

/-- A defunctionalised factory closure: identified by the payload it
produces when invoked. -/
abbrev Factory := Nat

/-- Simple container actions a provider callback may perform
(no nested provider registration). -/
inductive SAct where
  | bindAnyA (t : TypeId) (o : Obj)
  | bindFactoryA (t : TypeId) (f : Factory)
  | singletonA (t : TypeId) (o : Obj)
deriving DecidableEq, Repr

/-- A provider whose `register`/`boot` callbacks perform only simple
actions (used as the payload of a nested `register_provider` call). -/
structure SubProvider where
  pid : Nat
  regActs : List SAct
  bootActs : List SAct
deriving DecidableEq, Repr

/-- Container actions a provider callback may perform, including
registering another provider. -/
inductive Act where
  | simple (a : SAct)
  | registerProviderA (p : SubProvider)
deriving DecidableEq, Repr

/-- A service provider (`Box<dyn ServiceProvider>`): an id plus the
defunctionalised bodies of its `register` and `boot` callbacks. -/
structure Provider where
  pid : Nat
  regActs : List Act
  bootActs : List Act
deriving DecidableEq, Repr

/-- View a `SubProvider` as a `Provider` (its actions are all simple). -/
def SubProvider.toProvider (q : SubProvider) : Provider :=
  ⟨q.pid, q.regActs.map Act.simple, q.bootActs.map Act.simple⟩

/-- The container state (`struct Container`): the `services` map, the
`singletons` map, the `factories` registry and the provider list. -/
structure Container where
  services : TypeId → Option Obj
  singletons : TypeId → Option Obj
  factories : TypeId → Option Factory
  providers : List Provider

/-- `HashMap::insert`: overwriting update of a keyed map. -/
def insertMap {α : Type} (m : Nat → Option α) (k : Nat) (v : α) :
    Nat → Option α :=
  fun k' => if k' = k then some v else m k'

/-- `Container::new()`: all maps empty, no providers. -/
def emptyC : Container :=
  ⟨fun _ => none, fun _ => none, fun _ => none, []⟩

/-- Invoking a factory closure (`factory(self)`): allocates one fresh box
at address `a` holding the factory's payload.  The container argument
mirrors the `&dyn Contract` handle passed in the source; the
defunctionalised factories do not consult it. -/
def invokeFactory (f : Factory) (_c : Container) (a : Nat) : Obj :=
  ⟨a, f⟩

/-- `Container::bind_any`: `self.services.insert(type_id, value)`. -/
def Container.bind_any (c : Container) (t : TypeId) (o : Obj) : Container :=
  { c with services := insertMap c.services t o }

/-- `Container::bind_factory`: `self.factories.insert(type_id, factory)`. -/
def Container.bind_factory (c : Container) (t : TypeId) (f : Factory) :
    Container :=
  { c with factories := insertMap c.factories t f }

/-- `Container::bind<T>(marker, f)`: wraps `f` and delegates to
`bind_factory` at `TypeId::of::<T>()` (the marker only fixes the key). -/
def Container.bind (c : Container) (t : TypeId) (f : Factory) : Container :=
  c.bind_factory t f

/-- `Container::resolve_any`: if the singleton map contains the key return
that entry, else look in the services map.  Invokes no factory and writes
nothing (`&self` receiver). -/
def Container.resolve_any (c : Container) (t : TypeId) : Option Obj :=
  if (c.singletons t).isSome then c.singletons t
  else c.services t

/-- `Container::transient`: `self.factories.get(&type_id).map(|factory|
factory(self))`.  `&self` receiver: returns only the freshly built box
(allocated at address `a`), touching no container state. -/
def Container.transient (c : Container) (t : TypeId) (a : Nat) : Option Obj :=
  (c.factories t).map (fun f => invokeFactory f c a)

/-- `Container::singleton`: `self.singletons.insert(type_id, value)`. -/
def Container.singleton (c : Container) (t : TypeId) (o : Obj) : Container :=
  { c with singletons := insertMap c.singletons t o }

/-- `Container::singleton_factory`: invokes the factory immediately
(allocating at `a`) and inserts the result into the singleton map. -/
def Container.singleton_factory (c : Container) (t : TypeId) (f : Factory)
    (a : Nat) : Container :=
  { c with singletons := insertMap c.singletons t (invokeFactory f c a) }

/-- Observable provider-callback events: invocation of a provider's
`register` or `boot` callback, tagged with the provider's id. -/
inductive Ev where
  | reg (pid : Nat)
  | boot (pid : Nat)
deriving DecidableEq, Repr

/-- Run one simple action on the container. -/
def runSAct (c : Container) (a : SAct) : Container :=
  match a with
  | .bindAnyA t o => c.bind_any t o
  | .bindFactoryA t f => c.bind_factory t f
  | .singletonA t o => c.singleton t o

/-- Run a list of simple actions in order. -/
def runSActs (c : Container) : List SAct → Container
  | [] => c
  | a :: rest => runSActs (runSAct c a) rest

/-- `Container::register_provider` applied to a nested (simple-only)
provider: run its `register` callback, then push it onto the provider
list; the event records the `register` invocation. -/
def register_providerSub (c : Container) (q : SubProvider) :
    Container × List Ev :=
  let c1 := runSActs c q.regActs
  ({ c1 with providers := c1.providers ++ [q.toProvider] }, [Ev.reg q.pid])

/-- Run one action on the container, returning the callback events it
causes (only a nested `register_provider` causes one). -/
def runAct (c : Container) (a : Act) : Container × List Ev :=
  match a with
  | .simple s => (runSAct c s, [])
  | .registerProviderA q => register_providerSub c q

/-- Run a list of actions in order, concatenating their events. -/
def runActs (c : Container) : List Act → Container × List Ev
  | [] => (c, [])
  | a :: rest =>
    ((runActs (runAct c a).1 rest).1,
     (runAct c a).2 ++ (runActs (runAct c a).1 rest).2)

/-- `Container::register_provider`: `provider.register(self)` runs the
`register` callback immediately, then `self.providers.push(provider)`. -/
def register_provider (c : Container) (p : Provider) : Container × List Ev :=
  let r := runActs c p.regActs
  ({ r.1 with providers := r.1.providers ++ [p] }, Ev.reg p.pid :: r.2)

/-- The loop body of `Container::boot`: `for provider in &mut providers {
provider.boot(self) }` over the saved list, in order. -/
def bootLoop (c : Container) : List Provider → Container × List Ev
  | [] => (c, [])
  | p :: rest =>
    ((bootLoop (runActs c p.bootActs).1 rest).1,
     Ev.boot p.pid :: (runActs c p.bootActs).2
       ++ (bootLoop (runActs c p.bootActs).1 rest).2)

/-- `Container::boot`: `std::mem::take` empties `self.providers` into a
local, the loop runs every saved provider's `boot` callback against the
container, and finally `self.providers = providers` writes the saved
list back (overwriting whatever the callbacks put there). -/
def boot (c : Container) : Container × List Ev :=
  let saved := c.providers
  let r := bootLoop { c with providers := [] } saved
  ({ r.1 with providers := saved }, r.2)

/-- Modelled from the spec: steps 1–2 of the resolution engine (§4.3).
The generic memoizing entry point `resolve::<T>()` is called by both
example programs but its implementation is not among the provided
sources; `src/container.rs` contains only the raw lookup
(`resolve_any`) and the unmemoized path (`transient`).  Step 1: an
identity present in the instance cache returns the cached shared
instance, container untouched.  Step 2: a registered constructor is
invoked (allocating at `a`), the product is cached under the identity,
and returned.  Otherwise: not resolvable at this stage. -/
def resolveOnce (c : Container) (t : TypeId) (a : Nat) :
    Option (Obj × Container) :=
  match c.singletons t with
  | some o => some (o, c)
  | none =>
    match c.factories t with
    | some f => some (invokeFactory f c a, c.singleton t (invokeFactory f c a))
    | none => none

/-- Modelled from the spec: the full resolution engine `resolve` (§4.3's
steps 1–4), absent from the provided sources (see `resolveOnce`).  After
steps 1–2 fail, step 3 asks the requested type's self-registration
capability (`cap`) to register its own constructor into the factory
registry, then retries steps 1–2 exactly once; step 4 is the fatal
failure naming the requested type.  Success returns the instance and the
updated container. -/
def resolve (cap : TypeId → Option Factory) (c : Container) (t : TypeId)
    (a : Nat) : Except TypeId (Obj × Container) :=
  match resolveOnce c t a with
  | some r => .ok r
  | none =>
    match cap t with
    | some f =>
      match resolveOnce (c.bind_factory t f) t a with
      | some r => .ok r
      | none => .error t
    | none => .error t

/-! ### Shared lemmas about the provider machinery -/

/-- Running a simple action never touches the provider list. -/
theorem runSAct_providers (c : Container) (a : SAct) :
    (runSAct c a).providers = c.providers := by
  cases a <;>
    simp [runSAct, Container.bind_any, Container.bind_factory,
      Container.singleton]

/-- Running simple actions never touches the provider list. -/
theorem runSActs_providers (l : List SAct) (c : Container) :
    (runSActs c l).providers = c.providers := by
  induction l generalizing c with
  | nil => rfl
  | cons a rest ih => simp [runSActs, ih, runSAct_providers]

/-- A list of simple actions runs as `runSActs` and emits no events. -/
theorem runActs_simple (l : List SAct) (c : Container) :
    runActs c (l.map Act.simple) = (runSActs c l, []) := by
  induction l generalizing c with
  | nil => rfl
  | cons a rest ih => simp [runActs, runAct, runSActs, ih]

/-- Registering a simple-only provider emits exactly its `register`
event. -/
theorem register_sub_events (c : Container) (q : SubProvider) :
    (register_provider c q.toProvider).2 = [Ev.reg q.pid] := by
  simp [register_provider, SubProvider.toProvider, runActs_simple]

/-- Registering a simple-only provider appends it to the provider
list. -/
theorem register_sub_providers (c : Container) (q : SubProvider) :
    (register_provider c q.toProvider).1.providers
      = c.providers ++ [q.toProvider] := by
  simp [register_provider, SubProvider.toProvider, runActs_simple,
    runSActs_providers]

/-- The boot loop over simple-only providers emits exactly their `boot`
events, in list order. -/
theorem bootLoop_events_subs (qs : List SubProvider) (c : Container) :
    (bootLoop c (qs.map SubProvider.toProvider)).2
      = qs.map (fun q => Ev.boot q.pid) := by
  induction qs generalizing c with
  | nil => rfl
  | cons q rest ih =>
    simp [bootLoop, SubProvider.toProvider, runActs_simple, ih]

/-- `boot` always writes the saved provider list back. -/
theorem boot_providers (c : Container) :
    (boot c).1.providers = c.providers := rfl

/-- `boot` on a container holding simple-only providers emits exactly
their `boot` events, in insertion order. -/
theorem boot_events_subs (c : Container) (qs : List SubProvider)
    (h : c.providers = qs.map SubProvider.toProvider) :
    (boot c).2 = qs.map (fun q => Ev.boot q.pid) := by
  simp [boot, h, bootLoop_events_subs]

/-! ### Claim theorems -/

/-- C1: for a type with a registered factory and no pre-seeded instance,
the resolution engine invokes the factory on first resolution (building
the box allocated at `a`), caches it under the type's identity, and
every subsequent resolution returns that same cached instance with the
container unchanged — so the factory runs at most once per container
lifetime for that identity (the second call's result carries the first
call's allocation address `a`, not the later `a'`). -/
theorem resolve_factory_memoizes (cap : TypeId → Option Factory)
    (c : Container) (t : TypeId) (f : Factory) (a : Nat)
    (h1 : c.singletons t = none) (h2 : c.factories t = some f) :
    resolve cap c t a
      = .ok (invokeFactory f c a, c.singleton t (invokeFactory f c a))
    ∧ (c.singleton t (invokeFactory f c a)).singletons t
        = some (invokeFactory f c a)
    ∧ ∀ a', resolve cap (c.singleton t (invokeFactory f c a)) t a'
        = .ok (invokeFactory f c a, c.singleton t (invokeFactory f c a)) := by
  refine ⟨?_, ?_, ?_⟩
  · simp [resolve, resolveOnce, h1, h2]
  · simp [Container.singleton, insertMap]
  · intro a'
    simp [resolve, resolveOnce, Container.singleton, insertMap]

/-- Witness for C1: on a fresh container with factory `5` bound at
identity `0`, resolving with fresh address `7` builds and caches
`⟨7, 5⟩`. -/
theorem resolve_factory_memoizes_wit :
    resolve (fun _ => none) (emptyC.bind_factory 0 5) 0 7
      = .ok (⟨7, 5⟩, (emptyC.bind_factory 0 5).singleton 0 ⟨7, 5⟩) :=
  (resolve_factory_memoizes (fun _ => none) (emptyC.bind_factory 0 5)
    0 5 7 rfl rfl).1

/-- C2: for providers P1, P2 added (in that order) to a container with
no prior providers, the complete event trace of the program
`register_provider P1; register_provider P2; boot` is exactly
`[P1.register, P2.register, P1.boot, P2.boot]`: each `register` runs when
its provider is added, so every added provider's `register` has run
before `boot` runs any `boot` callback, and each phase follows insertion
order. -/
theorem boot_sequence_order (c : Container) (q1 q2 : SubProvider)
    (h : c.providers = []) :
    (register_provider c q1.toProvider).2
      ++ (register_provider (register_provider c q1.toProvider).1
            q2.toProvider).2
      ++ (boot (register_provider (register_provider c q1.toProvider).1
            q2.toProvider).1).2
    = [Ev.reg q1.pid, Ev.reg q2.pid, Ev.boot q1.pid, Ev.boot q2.pid] := by
  have p2 : (register_provider (register_provider c q1.toProvider).1
      q2.toProvider).1.providers
      = [q1, q2].map SubProvider.toProvider := by
    simp [register_sub_providers, h]
  rw [register_sub_events, register_sub_events, boot_events_subs _ _ p2]
  rfl

/-- Witness for C2: two do-nothing providers with ids 1 and 2 on the
fresh container produce the trace register 1, register 2, boot 1,
boot 2. -/
theorem boot_sequence_order_wit :
    (register_provider emptyC (SubProvider.toProvider ⟨1, [], []⟩)).2
      ++ (register_provider
            (register_provider emptyC (SubProvider.toProvider ⟨1, [], []⟩)).1
            (SubProvider.toProvider ⟨2, [], []⟩)).2
      ++ (boot (register_provider
            (register_provider emptyC (SubProvider.toProvider ⟨1, [], []⟩)).1
            (SubProvider.toProvider ⟨2, [], []⟩)).1).2
    = [Ev.reg 1, Ev.reg 2, Ev.boot 1, Ev.boot 2] :=
  boot_sequence_order emptyC ⟨1, [], []⟩ ⟨2, [], []⟩ rfl

/-- C3: an identity with a seeded singleton instance resolves to exactly
that pre-seeded instance: directly via `resolve_any`, still after a
factory is later bound for the same identity, and through the resolution
engine — which returns the seeded instance with the container unchanged
(no cache write, no allocation), so the factory is never invoked. -/
theorem singleton_seed_priority (c : Container) (t : TypeId) (o : Obj)
    (h : c.singletons t = some o) :
    c.resolve_any t = some o
    ∧ (∀ f, (c.bind_factory t f).resolve_any t = some o)
    ∧ ∀ cap f a,
        resolve cap (c.bind_factory t f) t a = .ok (o, c.bind_factory t f) := by
  refine ⟨?_, ?_, ?_⟩ <;>
    simp [Container.resolve_any, Container.bind_factory, resolve,
      resolveOnce, h]

/-- Witness for C3: a container seeded with `⟨0, 42⟩` at identity 1
resolves identity 1 to that instance. -/
theorem singleton_seed_priority_wit :
    (emptyC.singleton 1 ⟨0, 42⟩).resolve_any 1 = some ⟨0, 42⟩ :=
  (singleton_seed_priority (emptyC.singleton 1 ⟨0, 42⟩) 1 ⟨0, 42⟩ rfl).1

/-- C4: with a factory registered, `transient` invokes the factory on
every call (each call returns a freshly allocated box holding the
factory's product), so two calls with distinct allocations yield
distinct instances.  `transient` takes the container immutably (Rust
`&self`) and returns only the instance, so every container field —
services, singletons, factories, providers — is unchanged by
construction; in particular a subsequent cache lookup for an identity
that was never seeded still finds nothing. -/
theorem transient_always_rebuilds (c : Container) (t : TypeId) (f : Factory)
    (h : c.factories t = some f) :
    (∀ a, c.transient t a = some (invokeFactory f c a))
    ∧ (∀ a1 a2, a1 ≠ a2 → c.transient t a1 ≠ c.transient t a2)
    ∧ (c.singletons t = none → c.services t = none →
        c.resolve_any t = none) := by
  refine ⟨?_, ?_, ?_⟩
  · intro a; simp [Container.transient, h]
  · intro a1 a2 hne
    simp [Container.transient, h, invokeFactory]
    exact fun hEq => hne hEq
  · intro h1 h2; simp [Container.resolve_any, h1, h2]

/-- Witness for C4: with factory `3` bound at identity 0, a transient
resolution at fresh address 11 builds `⟨11, 3⟩`. -/
theorem transient_always_rebuilds_wit :
    (emptyC.bind_factory 0 3).transient 0 11 = some ⟨11, 3⟩ :=
  (transient_always_rebuilds (emptyC.bind_factory 0 3) 0 3 rfl).1 11

/-- C5: an identity with no cached instance, no registered factory and
no self-registration capability fails deterministically, the failure
naming the requested identity; no instance value is produced. -/
theorem resolve_unregistered_fatal (cap : TypeId → Option Factory)
    (c : Container) (t : TypeId) (a : Nat)
    (h1 : c.singletons t = none) (h2 : c.factories t = none)
    (h3 : cap t = none) :
    resolve cap c t a = .error t := by
  simp [resolve, resolveOnce, h1, h2, h3]

/-- Witness for C5: resolving identity 3 on the fresh container with no
capability fails naming identity 3. -/
theorem resolve_unregistered_fatal_wit :
    resolve (fun _ => none) emptyC 3 0 = .error 3 :=
  resolve_unregistered_fatal (fun _ => none) emptyC 3 0 rfl rfl rfl

/-- C6 counterexample: seeding identity 1 with `⟨0, 10⟩` and then putting
`⟨1, 20⟩` for the same identity does NOT retain the original instance:
resolution returns the later put, refuting first-writer-wins at this
concrete input. -/
theorem singleton_first_writer_cex :
    ((emptyC.singleton 1 ⟨0, 10⟩).singleton 1 ⟨1, 20⟩).resolve_any 1
        = some ⟨1, 20⟩
    ∧ ¬ ((emptyC.singleton 1 ⟨0, 10⟩).singleton 1 ⟨1, 20⟩).resolve_any 1
        = some ⟨0, 10⟩ := by
  constructor
  · simp [Container.resolve_any, Container.singleton, insertMap, emptyC]
  · simp [Container.resolve_any, Container.singleton, insertMap, emptyC]

/-- C6 (amended): a subsequent singleton put for an already-cached
identity overwrites the entry — last writer wins (`HashMap::insert`
semantics) — so later resolutions return the instance of the most recent
put, not the first. -/
theorem singleton_put_last_writer_wins (c : Container) (t : TypeId)
    (o1 o2 : Obj) :
    ((c.singleton t o1).singleton t o2).resolve_any t = some o2 := by
  simp [Container.resolve_any, Container.singleton, insertMap]

/-- C7 counterexample: with a single provider (id 1) added and booted,
calling `boot` a second time emits only the provider's `boot` event —
no `register` event occurs, refuting the claim that double-boot re-runs
every provider's `register` callback. -/
theorem double_boot_cex :
    (boot (boot (register_provider emptyC ⟨1, [], []⟩).1).1).2 = [Ev.boot 1]
    ∧ Ev.reg 1 ∉ (boot (boot (register_provider emptyC ⟨1, [], []⟩).1).1).2 := by
  constructor
  · rfl
  · decide

/-- C7 (amended): calling `boot()` a second time re-runs every
provider's `boot` callback again, in insertion order; `register`
callbacks are not re-run by `boot` (each ran exactly once, when the
provider was added via `register_provider`).  Double-boot is neither
detected nor rejected: the second boot emits the same boot-phase events
as the first. -/
theorem boot_twice_reruns_boot_only (c : Container) (q1 q2 : SubProvider)
    (h : c.providers = []) :
    (boot (register_provider (register_provider c q1.toProvider).1
        q2.toProvider).1).2
      = [Ev.boot q1.pid, Ev.boot q2.pid]
    ∧ (boot (boot (register_provider (register_provider c q1.toProvider).1
        q2.toProvider).1).1).2
      = [Ev.boot q1.pid, Ev.boot q2.pid] := by
  have p2 : (register_provider (register_provider c q1.toProvider).1
      q2.toProvider).1.providers
      = [q1, q2].map SubProvider.toProvider := by
    simp [register_sub_providers, h]
  have p3 : (boot (register_provider (register_provider c q1.toProvider).1
      q2.toProvider).1).1.providers
      = [q1, q2].map SubProvider.toProvider := by
    rw [boot_providers]; exact p2
  exact ⟨by rw [boot_events_subs _ _ p2]; rfl,
         by rw [boot_events_subs _ _ p3]; rfl⟩

/-- Witness for C7 (amended): two do-nothing providers with ids 1 and 2;
the second boot emits boot 1, boot 2 again. -/
theorem boot_twice_reruns_boot_only_wit :
    (boot (register_provider
        (register_provider emptyC (SubProvider.toProvider ⟨1, [], []⟩)).1
        (SubProvider.toProvider ⟨2, [], []⟩)).1).2
      = [Ev.boot 1, Ev.boot 2]
    ∧ (boot (boot (register_provider
        (register_provider emptyC (SubProvider.toProvider ⟨1, [], []⟩)).1
        (SubProvider.toProvider ⟨2, [], []⟩)).1).1).2
      = [Ev.boot 1, Ev.boot 2] :=
  boot_twice_reruns_boot_only emptyC ⟨1, [], []⟩ ⟨2, [], []⟩ rfl

/-- C8: registering factory `f1` then `f2` for the same identity leaves
the container literally equal to one where only `f2` was registered
(later registration overwrites the earlier, no error), both through
`bind_factory` and through the generic `bind` wrapper; a transient
resolution after the double registration invokes `f2`. -/
theorem bind_factory_overwrite_equiv (c : Container) (t : TypeId)
    (f1 f2 : Factory) :
    (c.bind_factory t f1).bind_factory t f2 = c.bind_factory t f2
    ∧ (c.bind t f1).bind t f2 = c.bind t f2
    ∧ ((c.bind_factory t f1).bind_factory t f2).factories t = some f2
    ∧ ∀ a, ((c.bind_factory t f1).bind_factory t f2).transient t a
        = some (invokeFactory f2 ((c.bind_factory t f1).bind_factory t f2) a) := by
  have hmap : insertMap (insertMap c.factories t f1) t f2
      = insertMap c.factories t f2 := by
    funext k
    by_cases hk : k = t <;> simp [insertMap, hk]
  have hcon : (c.bind_factory t f1).bind_factory t f2 = c.bind_factory t f2 := by
    cases c
    simp [Container.bind_factory] at hmap ⊢
    exact hmap
  refine ⟨hcon, hcon, ?_, ?_⟩
  · simp [Container.bind_factory, insertMap]
  · intro a; simp [Container.transient, Container.bind_factory, insertMap]

/-- C9: for an identity with no cached instance and no registered
factory but a self-registration capability offering factory `f`, the
resolution engine runs the fallback: the identity's own constructor is
registered into the factory registry, the retry succeeds, and the built
instance is cached; every subsequent resolution returns the same cached
instance with the container unchanged, so the fallback never runs
again. -/
theorem resolve_self_registration_once (cap : TypeId → Option Factory)
    (c : Container) (t : TypeId) (f : Factory) (a : Nat)
    (h1 : c.singletons t = none) (h2 : c.factories t = none)
    (h3 : cap t = some f) :
    ∃ o c', resolve cap c t a = .ok (o, c')
      ∧ c'.factories t = some f
      ∧ c'.singletons t = some o
      ∧ ∀ a', resolve cap c' t a' = .ok (o, c') := by
  refine ⟨invokeFactory f (c.bind_factory t f) a,
    (c.bind_factory t f).singleton t (invokeFactory f (c.bind_factory t f) a),
    ?_, ?_, ?_, ?_⟩
  · simp [resolve, resolveOnce, h1, h2, h3, Container.bind_factory, insertMap]
  · simp [Container.singleton, Container.bind_factory, insertMap]
  · simp [Container.singleton, insertMap]
  · intro a'
    simp [resolve, resolveOnce, Container.singleton, insertMap]

/-- Witness for C9: identity 4 with capability offering factory 9 on the
fresh container resolves through the fallback. -/
theorem resolve_self_registration_once_wit :
    ∃ o c', resolve (fun _ => some 9) emptyC 4 2 = .ok (o, c')
      ∧ c'.factories 4 = some 9
      ∧ c'.singletons 4 = some o
      ∧ ∀ a', resolve (fun _ => some 9) c' 4 a' = .ok (o, c') :=
  resolve_self_registration_once (fun _ => some 9) emptyC 4 9 2 rfl rfl rfl

/-- C10: `boot` always writes back the provider list it saved at entry,
so after `boot` returns the list is exactly what it was when `boot`
began.  Concretely, a provider (id 1) whose `boot` callback registers a
new provider (id 2) yields the trace boot 1, register 2 — provider 2's
`register` ran — yet provider 2 is dropped from the final list and its
`boot` never runs. -/
theorem boot_restores_provider_list :
    (∀ c : Container, (boot c).1.providers = c.providers)
    ∧ (boot (register_provider emptyC
        ⟨1, [], [Act.registerProviderA ⟨2, [], []⟩]⟩).1).1.providers
      = [⟨1, [], [Act.registerProviderA ⟨2, [], []⟩]⟩]
    ∧ (boot (register_provider emptyC
        ⟨1, [], [Act.registerProviderA ⟨2, [], []⟩]⟩).1).2
      = [Ev.boot 1, Ev.reg 2]
    ∧ Ev.boot 2 ∉ (boot (register_provider emptyC
        ⟨1, [], [Act.registerProviderA ⟨2, [], []⟩]⟩).1).2 := by
  refine ⟨boot_providers, rfl, rfl, by decide⟩

end Luminos
